import Mathlib

/-!
Shallow embedding of the navaid-api server core (src/navaid_api/main.py).

Python floats are modelled by real numbers, `math.sin`/`cos`/`asin`/`atan2`
by their exact real counterparts, Python dicts by functions into `Option`,
and `HTTPException(status_code, detail)` by an explicit error result.
The regex `^([A-Z]{2,5})(\d{3})(\d{3})$` is modelled as a deterministic
grammar check over the character list of the (already upper-cased) token,
with `\d` read as the ASCII digits that the zero-padded notation produces.
-/

namespace NavaidApi

open Real

/-- Model of Python `round(x, 6)`: x rounded to 6 decimal places
(nearest multiple of 10⁻⁶). -/
noncomputable def round6 (x : ℝ) : ℝ := (round (x * 1000000) : ℤ) / 1000000

/-- Model of `math.radians`. -/
noncomputable def radians (x : ℝ) : ℝ := x * Real.pi / 180

/-- Model of `math.degrees`. -/
noncomputable def degrees (x : ℝ) : ℝ := x * 180 / Real.pi

/-- Model of `math.atan2 y x`: the quadrant-aware arc tangent, following the
C/Python convention (signed zeros aside, which real numbers do not have). -/
noncomputable def atan2 (y x : ℝ) : ℝ :=
  if 0 < x then Real.arctan (y / x)
  else if x < 0 ∧ 0 ≤ y then Real.arctan (y / x) + Real.pi
  else if x < 0 then Real.arctan (y / x) - Real.pi
  else if 0 < y then Real.pi / 2
  else if y < 0 then -(Real.pi / 2)
  else 0

/-- Embeds `calculate_destination` (src/navaid_api/main.py, lines 272-300):
spherical-Earth forward geodesic, output rounded to 6 decimal places. -/
noncomputable def calculate_destination (lat lon bearing distance_nm : ℝ) : ℝ × ℝ :=
  let EARTH_RADIUS_NM : ℝ := 3440.065
  let lat_rad := radians lat
  let lon_rad := radians lon
  let bearing_rad := radians bearing
  let angular_dist := distance_nm / EARTH_RADIUS_NM
  let dest_lat := Real.arcsin
    (Real.sin lat_rad * Real.cos angular_dist
      + Real.cos lat_rad * Real.sin angular_dist * Real.cos bearing_rad)
  let dest_lon := lon_rad + atan2
    (Real.sin bearing_rad * Real.sin angular_dist * Real.cos lat_rad)
    (Real.cos angular_dist - Real.sin lat_rad * Real.sin dest_lat)
  (round6 (degrees dest_lat), round6 (degrees dest_lon))

/-- Follows the spec's words (§4.4): spherical-Earth direct geodesic with
mean Earth radius R = 3440.065 NM, angular distance δ = d/R,
destLat = asin(sin(lat)·cos(δ) + cos(lat)·sin(δ)·cos(bearing)),
destLon = lon + atan2(sin(bearing)·sin(δ)·cos(lat), cos(δ) − sin(lat)·sin(destLat)),
trigonometry in radians, degree conversion at the boundary, both outputs
rounded to 6 decimal places. Stated separately from `calculate_destination`
so that the code can be compared against the spec's formula. -/
noncomputable def projectSpec (lat lon bearing distance_nm : ℝ) : ℝ × ℝ :=
  let R : ℝ := 3440.065
  let lat_rad := radians lat
  let lon_rad := radians lon
  let bearing_rad := radians bearing
  let delta := distance_nm / R
  let destLat := Real.arcsin
    (Real.sin lat_rad * Real.cos delta
      + Real.cos lat_rad * Real.sin delta * Real.cos bearing_rad)
  let destLon := lon_rad + atan2
    (Real.sin bearing_rad * Real.sin delta * Real.cos lat_rad)
    (Real.cos delta - Real.sin lat_rad * Real.sin destLat)
  (round6 (degrees destLat), round6 (degrees destLon))

/-- Modelled from the spec: the `Airport` record type of the missing
`src/navaid_api/parser.py` module, fields per spec §3 and their use in
`main.py` (test fixtures construct exactly these fields). -/
structure Airport where
  identifier : String
  icao : String
  name : String
  city : String
  state : String
  type : String
  latitude : ℝ
  longitude : ℝ

/-- Modelled from the spec: the `Navaid` record type of the missing
`src/navaid_api/parser.py` module. -/
structure Navaid where
  identifier : String
  name : String
  type : String
  latitude : ℝ
  longitude : ℝ

/-- Modelled from the spec: the `Fix` (waypoint) record type of the missing
`src/navaid_api/parser.py` module. -/
structure Fix where
  identifier : String
  state : String
  latitude : ℝ
  longitude : ℝ

/-- The three global catalogs `AIRPORTS`, `NAVAIDS`, `FIXES` of `main.py`,
each a dict keyed by identifier, modelled as functions into `Option`. -/
structure DB where
  AIRPORTS : String → Option Airport
  NAVAIDS : String → Option Navaid
  FIXES : String → Option Fix

/-- The reference point bound to the local `ref` of `get_radial_distance`,
which may come from any of the three catalogs. -/
inductive RefPoint where
  | airport (a : Airport)
  | navaid (n : Navaid)
  | fix (f : Fix)

def RefPoint.identifier : RefPoint → String
  | .airport a => a.identifier
  | .navaid n => n.identifier
  | .fix f => f.identifier

def RefPoint.latitude : RefPoint → ℝ
  | .airport a => a.latitude
  | .navaid n => n.latitude
  | .fix f => f.latitude

def RefPoint.longitude : RefPoint → ℝ
  | .airport a => a.longitude
  | .navaid n => n.longitude
  | .fix f => f.longitude

/-- The JSON dict shapes returned by the endpoints of `main.py`. -/
inductive Response where
  | airportData (identifier icao name city state type : String) (latitude longitude : ℝ)
  | navaidData (identifier name type : String) (latitude longitude : ℝ)
  | fixData (identifier type state : String) (latitude longitude : ℝ)
  | radialData (reference type : String) (radial : ℤ) (distance_nm latitude longitude : ℝ)

/-- Outcome of an endpoint call: a JSON response, or a raised
`HTTPException(status_code, detail)` (404 = NotFound, 400 = InvalidArgument). -/
inductive ApiResult where
  | ok (r : Response)
  | error (status : Nat) (detail : String)

/-- True of the ASCII characters matched by `[A-Z]` in the notation regex. -/
def isUpperAlpha (c : Char) : Bool := 65 ≤ c.toNat && c.toNat ≤ 90

def isDigitChar (c : Char) : Bool := 48 ≤ c.toNat && c.toNat ≤ 57

/-- Model of Python `int` applied to a captured group of ASCII digits. -/
def digitsToNat (cs : List Char) : ℕ :=
  cs.foldl (fun acc c => 10 * acc + (c.toNat - 48)) 0

/-- Model of `re.match(r"^([A-Z]{2,5})(\d{3})(\d{3})$", identifier)` together
with the `int` conversions of groups 2 and 3 (main.py, lines 110-114 and
136-140): the token splits as 2-5 uppercase letters followed by exactly six
digits, read as a three-digit bearing and a three-digit distance. Since the
two character classes are disjoint and the match is anchored, the split is
the letters prefix / digits suffix partition. -/
def parseEncoded (s : String) : Option (String × ℕ × ℕ) :=
  let letters := s.data.takeWhile isUpperAlpha
  let rest := s.data.dropWhile isUpperAlpha
  if 2 ≤ letters.length ∧ letters.length ≤ 5 ∧ rest.length = 6 ∧ rest.all isDigitChar then
    some (String.mk letters, digitsToNat (rest.take 3), digitsToNat (rest.drop 3))
  else none

/-- Model of Python `str.upper()` on the ASCII identifiers the server handles. -/
def strUpper (s : String) : String := String.mk (s.data.map Char.toUpper)

/-- Follows the spec's words (§8): a token built from an identifier by
appending the bearing and the distance, each zero-padded to three digits. -/
def pad3 (n : ℕ) : String :=
  String.mk [Nat.digitChar (n / 100), Nat.digitChar (n / 10 % 10), Nat.digitChar (n % 10)]

/-- The reference-point resolution of `get_radial_distance` (main.py, lines
219-243): under a kind restriction only that catalog is consulted; otherwise
airports, then navaids, then fixes, the first hit winning, paired with the
`ref_type` string reported in the response. -/
def refLookup (db : DB) (identifier : String)
    (airports_only navaids_only waypoints_only : Bool) : Option (RefPoint × String) :=
  if airports_only then (db.AIRPORTS identifier).map (fun a => (.airport a, "airport"))
  else if navaids_only then (db.NAVAIDS identifier).map (fun n => (.navaid n, "navaid"))
  else if waypoints_only then (db.FIXES identifier).map (fun f => (.fix f, "waypoint"))
  else
    match db.AIRPORTS identifier with
    | some a => some (.airport a, "airport")
    | none =>
      match db.NAVAIDS identifier with
      | some n => some (.navaid n, "navaid")
      | none => (db.FIXES identifier).map (fun f => (.fix f, "waypoint"))

/-- The 404 detail message of `get_radial_distance` (main.py, lines 245-253). -/
def notFoundDetail (identifier : String)
    (airports_only navaids_only waypoints_only : Bool) : String :=
  if airports_only then "Airport '" ++ identifier ++ "' not found"
  else if navaids_only then "NAVAID '" ++ identifier ++ "' not found"
  else if waypoints_only then "Waypoint '" ++ identifier ++ "' not found"
  else "'" ++ identifier ++ "' not found"

/-- Embeds `get_radial_distance` (main.py, lines 210-269). The Python default
arguments `airports_only=False` etc. are passed explicitly by the callers
below. Resolution happens first; only then are radial and distance validated,
and finally `calculate_destination` is applied to the reference coordinate. -/
noncomputable def get_radial_distance (db : DB) (identifier : String) (radial : ℤ)
    (distance : ℝ) (airports_only navaids_only waypoints_only : Bool) : ApiResult :=
  match refLookup db identifier airports_only navaids_only waypoints_only with
  | none => .error 404 (notFoundDetail identifier airports_only navaids_only waypoints_only)
  | some (ref, ref_type) =>
    if ¬ (0 ≤ radial ∧ radial ≤ 360) then .error 400 "Radial must be 0-360"
    else if distance < 0 then .error 400 "Distance must be positive"
    else
      let dest := calculate_destination ref.latitude ref.longitude (radial : ℝ) distance
      .ok (.radialData ref.identifier ref_type radial distance dest.1 dest.2)

/-- The JSON dict built for an airport (main.py, lines 72-81 and 146-155). -/
def airportResponse (a : Airport) : Response :=
  .airportData a.identifier a.icao a.name a.city a.state a.type a.latitude a.longitude

/-- The JSON dict built for a navaid (main.py, lines 119-125 and 160-166). -/
def navaidResponse (n : Navaid) : Response :=
  .navaidData n.identifier n.name n.type n.latitude n.longitude

/-- The JSON dict built for a fix (main.py, lines 93-99 and 171-177);
its `type` field is the constant string "FIX". -/
def fixResponse (f : Fix) : Response :=
  .fixData f.identifier "FIX" f.state f.latitude f.longitude

/-- Embeds `get_airport` (main.py, lines 65-83). -/
def get_airport (db : DB) (identifier : String) : ApiResult :=
  let identifier := strUpper identifier
  match db.AIRPORTS identifier with
  | some airport => .ok (airportResponse airport)
  | none => .error 404 ("Airport '" ++ identifier ++ "' not found")

/-- Embeds `get_waypoint` (main.py, lines 86-101). -/
def get_waypoint (db : DB) (identifier : String) : ApiResult :=
  let identifier := strUpper identifier
  match db.FIXES identifier with
  | some fix => .ok (fixResponse fix)
  | none => .error 404 ("Waypoint '" ++ identifier ++ "' not found")

/-- Embeds `get_navaid` (main.py, lines 104-127): the encoded notation is
tried first and routed to the unrestricted `get_radial_distance`; otherwise
the navaid catalog is consulted. -/
noncomputable def get_navaid (db : DB) (identifier : String) : ApiResult :=
  let identifier := strUpper identifier
  match parseEncoded identifier with
  | some (nav_id, radial, distance) =>
    get_radial_distance db nav_id (radial : ℤ) (distance : ℝ) false false false
  | none =>
    match db.NAVAIDS identifier with
    | some navaid => .ok (navaidResponse navaid)
    | none => .error 404 ("NAVAID '" ++ identifier ++ "' not found")

/-- Embeds `get_point` (main.py, lines 130-179): the encoded notation is
tried first; otherwise airports, then navaids, then fixes. -/
noncomputable def get_point (db : DB) (identifier : String) : ApiResult :=
  let identifier := strUpper identifier
  match parseEncoded identifier with
  | some (nav_id, radial, distance) =>
    get_radial_distance db nav_id (radial : ℤ) (distance : ℝ) false false false
  | none =>
    match db.AIRPORTS identifier with
    | some airport => .ok (airportResponse airport)
    | none =>
      match db.NAVAIDS identifier with
      | some navaid => .ok (navaidResponse navaid)
      | none =>
        match db.FIXES identifier with
        | some fix => .ok (fixResponse fix)
        | none => .error 404 ("'" ++ identifier ++ "' not found")

/-- Embeds `get_airport_radial` (main.py, lines 182-186). -/
noncomputable def get_airport_radial (db : DB) (identifier : String) (radial : ℤ)
    (distance : ℝ) : ApiResult :=
  get_radial_distance db (strUpper identifier) radial distance true false false

/-- Embeds `get_waypoint_radial` (main.py, lines 189-193). -/
noncomputable def get_waypoint_radial (db : DB) (identifier : String) (radial : ℤ)
    (distance : ℝ) : ApiResult :=
  get_radial_distance db (strUpper identifier) radial distance false false true

/-- Embeds `get_navaid_radial` (main.py, lines 196-200). -/
noncomputable def get_navaid_radial (db : DB) (identifier : String) (radial : ℤ)
    (distance : ℝ) : ApiResult :=
  get_radial_distance db (strUpper identifier) radial distance false true false

/-- Embeds `get_point_radial` (main.py, lines 203-207). -/
noncomputable def get_point_radial (db : DB) (identifier : String) (radial : ℤ)
    (distance : ℝ) : ApiResult :=
  get_radial_distance db (strUpper identifier) radial distance false false false

/-- The plain-identifier treatment of the airport path: exactly the body of
`get_airport` after case normalization. Stated separately so that theorems
can say that a token is "looked up as a plain identifier". -/
def plainAirportLookup (db : DB) (identifier : String) : ApiResult :=
  match db.AIRPORTS identifier with
  | some airport => .ok (airportResponse airport)
  | none => .error 404 ("Airport '" ++ identifier ++ "' not found")

/-- The plain-identifier treatment of the waypoint path. -/
def plainWaypointLookup (db : DB) (identifier : String) : ApiResult :=
  match db.FIXES identifier with
  | some fix => .ok (fixResponse fix)
  | none => .error 404 ("Waypoint '" ++ identifier ++ "' not found")

/-- The plain-identifier treatment of the navaid path: the part of
`get_navaid` after the encoded-notation test. -/
def plainNavaidLookup (db : DB) (identifier : String) : ApiResult :=
  match db.NAVAIDS identifier with
  | some navaid => .ok (navaidResponse navaid)
  | none => .error 404 ("NAVAID '" ++ identifier ++ "' not found")

/-- The plain-identifier treatment of the any-kind path: the part of
`get_point` after the encoded-notation test, consulting airports, then
navaids, then fixes. -/
def plainPointLookup (db : DB) (identifier : String) : ApiResult :=
  match db.AIRPORTS identifier with
  | some airport => .ok (airportResponse airport)
  | none =>
    match db.NAVAIDS identifier with
    | some navaid => .ok (navaidResponse navaid)
    | none =>
      match db.FIXES identifier with
      | some fix => .ok (fixResponse fix)
      | none => .error 404 ("'" ++ identifier ++ "' not found")

/-! Concrete sample catalogs, mirroring the fixture of src/tests/test_api.py:
the identifier SEA names both an airport and a navaid, at different
coordinates. -/

/-- The SEA airport of the test fixture. -/
noncomputable def apSEA : Airport :=
  ⟨"SEA", "KSEA", "SEATTLE-TACOMA INTL", "SEATTLE", "WA", "AIRPORT", 47.449, -122.309⟩

/-- The SEA VORTAC of the test fixture. -/
noncomputable def navSEA : Navaid :=
  ⟨"SEA", "SEATTLE", "VORTAC", 47.435278, -122.309722⟩

/-- Catalogs in which SEA is both an airport and a navaid. -/
noncomputable def dbBoth : DB :=
  ⟨fun i => if i = "SEA" then some apSEA else none,
   fun i => if i = "SEA" then some navSEA else none,
   fun _ => none⟩

/-- Catalogs in which SEA is only a navaid. -/
noncomputable def dbNavOnly : DB :=
  ⟨fun _ => none,
   fun i => if i = "SEA" then some navSEA else none,
   fun _ => none⟩

/-- Empty catalogs. -/
def dbEmpty : DB := ⟨fun _ => none, fun _ => none, fun _ => none⟩

/-! Helper lemmas about characters, strings and the encoded-token grammar. -/

lemma char_toNat_ofNat {n : ℕ} (h : n < 55296) : (Char.ofNat n).toNat = n := by
  have hv : n.isValidChar := Or.inl h
  simp only [Char.ofNat, hv, reduceDIte, Char.ofNatAux, Char.toNat]
  rfl

lemma toUpper_eq_self {c : Char} (h : c.toNat < 97) : c.toUpper = c := by
  simp only [Char.toUpper]
  rw [if_neg]
  omega

lemma toUpper_toUpper (c : Char) : c.toUpper.toUpper = c.toUpper := by
  by_cases h : 97 ≤ c.toNat ∧ c.toNat ≤ 122
  · have h1 : c.toUpper = Char.ofNat (c.toNat - 32) := by
      simp only [Char.toUpper]
      rw [if_pos h]
    have h2 : (Char.ofNat (c.toNat - 32)).toNat = c.toNat - 32 :=
      char_toNat_ofNat (by omega)
    rw [h1]
    apply toUpper_eq_self
    omega
  · have h1 : c.toUpper = c := by
      simp only [Char.toUpper]
      rw [if_neg h]
    rw [h1, h1]

lemma strUpper_strUpper (s : String) : strUpper (strUpper s) = strUpper s := by
  have hf : Char.toUpper ∘ Char.toUpper = Char.toUpper := funext toUpper_toUpper
  cases s with
  | mk l => simp only [strUpper, List.map_map, hf]

lemma map_toUpper_eq_self {l : List Char} (h : ∀ c ∈ l, c.toNat < 97) :
    l.map Char.toUpper = l := by
  induction l with
  | nil => rfl
  | cons c cs ih =>
    rw [List.map_cons, toUpper_eq_self (h c (by simp)),
      ih (fun x hx => h x (by simp [hx]))]

lemma strUpper_eq_self {s : String} (h : ∀ c ∈ s.data, c.toNat < 97) : strUpper s = s := by
  cases s with
  | mk l => exact congrArg String.mk (map_toUpper_eq_self h)

lemma takeWhile_append_all {p : Char → Bool} {l1 l2 : List Char}
    (h : ∀ c ∈ l1, p c = true) :
    (l1 ++ l2).takeWhile p = l1 ++ l2.takeWhile p := by
  induction l1 with
  | nil => rfl
  | cons c cs ih =>
    have hc : p c = true := h c (by simp)
    have ht := ih (fun x hx => h x (by simp [hx]))
    simp [List.takeWhile_cons, hc, ht]

lemma dropWhile_append_all {p : Char → Bool} {l1 l2 : List Char}
    (h : ∀ c ∈ l1, p c = true) :
    (l1 ++ l2).dropWhile p = l2.dropWhile p := by
  induction l1 with
  | nil => rfl
  | cons c cs ih =>
    have hc : p c = true := h c (by simp)
    have ht := ih (fun x hx => h x (by simp [hx]))
    simp [List.dropWhile_cons, hc, ht]

lemma digitChar_toNat {k : ℕ} (h : k < 10) : (Nat.digitChar k).toNat = 48 + k := by
  interval_cases k <;> rfl

lemma isUpperAlpha_digitChar {k : ℕ} (h : k < 10) :
    isUpperAlpha (Nat.digitChar k) = false := by
  simp only [isUpperAlpha, digitChar_toNat h]
  simp only [Bool.and_eq_false_iff, decide_eq_false_iff_not]
  omega

lemma isDigitChar_digitChar {k : ℕ} (h : k < 10) :
    isDigitChar (Nat.digitChar k) = true := by
  simp only [isDigitChar, digitChar_toNat h]
  simp only [Bool.and_eq_true, decide_eq_true_eq]
  omega

lemma toUpper_digitChar {k : ℕ} (h : k < 10) :
    (Nat.digitChar k).toUpper = Nat.digitChar k :=
  toUpper_eq_self (by rw [digitChar_toNat h]; omega)

lemma pad3_data (n : ℕ) :
    (pad3 n).data = [Nat.digitChar (n / 100), Nat.digitChar (n / 10 % 10),
      Nat.digitChar (n % 10)] := rfl

lemma digitsToNat_pad3 {n : ℕ} (h : n ≤ 999) : digitsToNat (pad3 n).data = n := by
  rw [pad3_data]
  simp only [digitsToNat, List.foldl]
  rw [digitChar_toNat (by omega), digitChar_toNat (by omega), digitChar_toNat (by omega)]
  omega

lemma degrees_radians (x : ℝ) : degrees (radians x) = x := by
  have hπ : Real.pi ≠ 0 := Real.pi_ne_zero
  simp only [degrees, radians]
  field_simp

lemma atan2_zero_of_nonneg {x : ℝ} (hx : 0 ≤ x) : atan2 0 x = 0 := by
  rcases lt_or_eq_of_le hx with h | h
  · unfold atan2
    rw [if_pos h, zero_div, Real.arctan_zero]
  · rw [← h]
    simp [atan2]

lemma isUpperAlpha_toNat_le {c : Char} (h : isUpperAlpha c = true) : c.toNat ≤ 90 := by
  simp only [isUpperAlpha, Bool.and_eq_true, decide_eq_true_eq] at h
  exact h.2

/-! Claim theorems. -/

/-- C1: for latitude in [-90,90], any longitude, bearing in [0,360] and
distance ≥ 0, `calculate_destination` returns exactly the spherical-Earth
forward-geodesic result prescribed by the spec (radius 3440.065 NM, the
asin/atan2 formulas, radian trigonometry with degree conversion at the
boundary, both outputs rounded to 6 decimal places), as captured by
`projectSpec`. -/
theorem calculate_destination_matches_spec (lat lon b d : ℝ)
    (_h1 : -90 ≤ lat) (_h2 : lat ≤ 90) (_h3 : 0 ≤ b) (_h4 : b ≤ 360) (_h5 : 0 ≤ d) :
    calculate_destination lat lon b d = projectSpec lat lon b d := rfl

theorem calculate_destination_matches_spec_witness :
    (-90 ≤ (47.435278 : ℝ) ∧ (47.435278 : ℝ) ≤ 90 ∧ (0:ℝ) ≤ 270 ∧ (270:ℝ) ≤ 360
      ∧ (0:ℝ) ≤ 5) ∧
    calculate_destination 47.435278 (-122.309722) 270 5
      = projectSpec 47.435278 (-122.309722) 270 5 :=
  ⟨by norm_num,
    calculate_destination_matches_spec 47.435278 (-122.309722) 270 5
      (by norm_num) (by norm_num) (by norm_num) (by norm_num) (by norm_num)⟩

/-- C4: for latitude in [-90,90], any longitude and bearing in [0,360],
projecting with distance 0 returns exactly the input coordinate after
6-decimal rounding: the zero-distance identity law. -/
theorem project_zero_distance_identity (lat lon b : ℝ)
    (h1 : -90 ≤ lat) (h2 : lat ≤ 90) (_h3 : 0 ≤ b) (_h4 : b ≤ 360) :
    calculate_destination lat lon b 0 = (round6 lat, round6 lon) := by
  have hπ := Real.pi_pos
  have hlo : -(Real.pi / 2) ≤ radians lat := by
    simp only [radians]
    nlinarith
  have hhi : radians lat ≤ Real.pi / 2 := by
    simp only [radians]
    nlinarith
  have hsin : Real.arcsin (Real.sin (radians lat)) = radians lat :=
    Real.arcsin_sin hlo hhi
  have hz : (0 : ℝ) / 3440.065 = 0 := by norm_num
  simp only [calculate_destination, hz, Real.cos_zero, Real.sin_zero, mul_zero,
    zero_mul, mul_one, add_zero]
  rw [hsin]
  have hs1 : 0 ≤ 1 - Real.sin (radians lat) * Real.sin (radians lat) := by
    nlinarith [Real.sin_sq_le_one (radians lat)]
  rw [atan2_zero_of_nonneg hs1, add_zero, degrees_radians, degrees_radians]

theorem project_zero_distance_identity_witness :
    (-90 ≤ (47.435278 : ℝ) ∧ (47.435278 : ℝ) ≤ 90 ∧ (0:ℝ) ≤ 90 ∧ (90:ℝ) ≤ 360) ∧
    calculate_destination 47.435278 (-122.309722) 90 0
      = (round6 47.435278, round6 (-122.309722)) :=
  ⟨by norm_num,
    project_zero_distance_identity 47.435278 (-122.309722) 90
      (by norm_num) (by norm_num) (by norm_num) (by norm_num)⟩

/-- C5: bearing 360 is accepted by the projected lookup (it is never rejected
as a 400 InvalidArgument), and projecting with bearing 360 returns exactly the
same result as projecting with bearing 0, for every reference coordinate and
every distance d ≥ 0. -/
theorem bearing_360_equals_bearing_0 (db : DB) (s : String) (d lat lon : ℝ)
    (hd : 0 ≤ d) :
    (∀ m, get_radial_distance db s 360 d false false false ≠ ApiResult.error 400 m) ∧
    calculate_destination lat lon 360 d = calculate_destination lat lon 0 d := by
  constructor
  · intro m
    unfold get_radial_distance
    cases h : refLookup db s false false false with
    | none => simp
    | some pr =>
      obtain ⟨ref, ty⟩ := pr
      dsimp only
      rw [if_neg (by decide : ¬ ¬ ((0:ℤ) ≤ 360 ∧ (360:ℤ) ≤ 360)),
        if_neg (not_lt.2 hd)]
      simp
  · have h360 : radians 360 = 2 * Real.pi := by
      simp only [radians]
      ring
    have h0 : radians 0 = 0 := by
      simp [radians]
    simp only [calculate_destination, h360, h0, Real.sin_two_pi, Real.cos_two_pi,
      Real.sin_zero, Real.cos_zero]

/-- C2: for every projected lookup, under any kind restriction, an identifier
absent from the permitted catalog set yields a 404 NotFound regardless of the
radial and distance values; when the identifier resolves, a 400
InvalidArgument is returned exactly when the radial is outside [0,360] (with
the detail naming the radial) or, the radial being in range, when the
distance is negative (with the detail naming the distance); otherwise the
projected result is returned. -/
theorem projected_lookup_error_order (db : DB) (identifier : String) (radial : ℤ)
    (distance : ℝ) (aOnly nOnly wOnly : Bool) :
    (refLookup db identifier aOnly nOnly wOnly = none →
      get_radial_distance db identifier radial distance aOnly nOnly wOnly
        = ApiResult.error 404 (notFoundDetail identifier aOnly nOnly wOnly)) ∧
    (∀ ref ty, refLookup db identifier aOnly nOnly wOnly = some (ref, ty) →
      (¬ (0 ≤ radial ∧ radial ≤ 360) →
        get_radial_distance db identifier radial distance aOnly nOnly wOnly
          = ApiResult.error 400 "Radial must be 0-360") ∧
      ((0 ≤ radial ∧ radial ≤ 360) → distance < 0 →
        get_radial_distance db identifier radial distance aOnly nOnly wOnly
          = ApiResult.error 400 "Distance must be positive") ∧
      ((0 ≤ radial ∧ radial ≤ 360) → 0 ≤ distance →
        get_radial_distance db identifier radial distance aOnly nOnly wOnly
          = ApiResult.ok (Response.radialData ref.identifier ty radial distance
              (calculate_destination ref.latitude ref.longitude (radial : ℝ) distance).1
              (calculate_destination ref.latitude ref.longitude (radial : ℝ) distance).2))) := by
  refine ⟨fun hn => ?_, fun ref ty hs =>
    ⟨fun hr => ?_, fun hr hdneg => ?_, fun hr hdnn => ?_⟩⟩
  · unfold get_radial_distance
    rw [hn]
  · unfold get_radial_distance
    rw [hs]
    dsimp only
    rw [if_pos hr]
  · unfold get_radial_distance
    rw [hs]
    dsimp only
    rw [if_neg (not_not_intro hr), if_pos hdneg]
  · unfold get_radial_distance
    rw [hs]
    dsimp only
    rw [if_neg (not_not_intro hr), if_neg (not_lt.2 hdnn)]

theorem projected_lookup_error_order_witness :
    get_radial_distance dbNavOnly "SEA" 400 5 false true false
      = ApiResult.error 400 "Radial must be 0-360" :=
  ((projected_lookup_error_order dbNavOnly "SEA" 400 5 false true false).2
    (RefPoint.navaid navSEA) "navaid" rfl).1 (by decide)

/-- C3: for a token that is not in encoded notation, the any-kind plain lookup
`get_point` and the any-kind resolution used by the projected lookup consult
the catalogs in the fixed order airports, then navaids, then fixes, returning
the entity from the first catalog containing the identifier; in particular an
identifier present in both the airport and navaid catalogs yields the airport
entity. -/
theorem any_kind_search_order (db : DB) (s : String)
    (hne : parseEncoded (strUpper s) = none) :
    (∀ a, db.AIRPORTS (strUpper s) = some a →
      get_point db s = ApiResult.ok (airportResponse a) ∧
      refLookup db (strUpper s) false false false
        = some (RefPoint.airport a, "airport")) ∧
    (db.AIRPORTS (strUpper s) = none → ∀ n, db.NAVAIDS (strUpper s) = some n →
      get_point db s = ApiResult.ok (navaidResponse n) ∧
      refLookup db (strUpper s) false false false
        = some (RefPoint.navaid n, "navaid")) ∧
    (db.AIRPORTS (strUpper s) = none → db.NAVAIDS (strUpper s) = none →
      ∀ f, db.FIXES (strUpper s) = some f →
      get_point db s = ApiResult.ok (fixResponse f) ∧
      refLookup db (strUpper s) false false false
        = some (RefPoint.fix f, "waypoint")) := by
  refine ⟨fun a ha => ⟨?_, ?_⟩, fun hA n hn => ⟨?_, ?_⟩, fun hA hN f hf => ⟨?_, ?_⟩⟩
  · simp [get_point, hne, ha]
  · simp [refLookup, ha]
  · simp [get_point, hne, hA, hn]
  · simp [refLookup, hA, hn]
  · simp [get_point, hne, hA, hN, hf]
  · simp [refLookup, hA, hN, hf]

theorem any_kind_search_order_witness :
    get_point dbBoth "SEA" = ApiResult.ok (airportResponse apSEA) ∧
    refLookup dbBoth (strUpper "SEA") false false false
      = some (RefPoint.airport apSEA, "airport") :=
  (any_kind_search_order dbBoth "SEA" (by decide)).1 apSEA rfl

/-- C6: a token built from 2-5 uppercase letters, a bearing in [0,359]
zero-padded to three digits, and a distance in [0,999] zero-padded to three
digits is recognized as encoded notation and decoded back to exactly the
original triple (it is moreover fixed by case normalization); and a token
not recognized as encoded notation is treated by the navaid and any-kind
lookups as a plain identifier. -/
theorem encoded_notation_roundtrip (id : String) (b d : ℕ)
    (hlen1 : 2 ≤ id.data.length) (hlen2 : id.data.length ≤ 5)
    (hup : ∀ c ∈ id.data, isUpperAlpha c = true)
    (hb : b ≤ 359) (hd : d ≤ 999) :
    parseEncoded (id ++ pad3 b ++ pad3 d) = some (id, b, d) ∧
    strUpper (id ++ pad3 b ++ pad3 d) = id ++ pad3 b ++ pad3 d ∧
    (∀ (db : DB) (s : String), parseEncoded (strUpper s) = none →
      get_navaid db s = plainNavaidLookup db (strUpper s) ∧
      get_point db s = plainPointLookup db (strUpper s)) := by
  have hb9 : b ≤ 999 := by omega
  have h1 : b / 100 < 10 := by omega
  have h2 : b / 10 % 10 < 10 := by omega
  have h3 : b % 10 < 10 := by omega
  have h4 : d / 100 < 10 := by omega
  have h5 : d / 10 % 10 < 10 := by omega
  have h6 : d % 10 < 10 := by omega
  have hdata : (id ++ pad3 b ++ pad3 d).data
      = id.data ++ (Nat.digitChar (b / 100) :: Nat.digitChar (b / 10 % 10) ::
        Nat.digitChar (b % 10) :: Nat.digitChar (d / 100) :: Nat.digitChar (d / 10 % 10) ::
        Nat.digitChar (d % 10) :: []) := by
    simp [pad3_data]
  have htw : (id ++ pad3 b ++ pad3 d).data.takeWhile isUpperAlpha = id.data := by
    rw [hdata, takeWhile_append_all hup]
    simp [List.takeWhile_cons, isUpperAlpha_digitChar h1]
  have hdw : (id ++ pad3 b ++ pad3 d).data.dropWhile isUpperAlpha
      = Nat.digitChar (b / 100) :: Nat.digitChar (b / 10 % 10) ::
        Nat.digitChar (b % 10) :: Nat.digitChar (d / 100) :: Nat.digitChar (d / 10 % 10) ::
        Nat.digitChar (d % 10) :: [] := by
    rw [hdata, dropWhile_append_all hup]
    simp [List.dropWhile_cons, isUpperAlpha_digitChar h1]
  refine ⟨?_, ?_, ?_⟩
  · simp only [parseEncoded, htw, hdw]
    rw [if_pos]
    · have hmk : String.mk id.data = id := by
        cases id with
        | mk l => rfl
      simp only [List.take, List.drop, hmk]
      rw [show [Nat.digitChar (b / 100), Nat.digitChar (b / 10 % 10),
            Nat.digitChar (b % 10)] = (pad3 b).data from (pad3_data b).symm,
        show [Nat.digitChar (d / 100), Nat.digitChar (d / 10 % 10),
            Nat.digitChar (d % 10)] = (pad3 d).data from (pad3_data d).symm,
        digitsToNat_pad3 hb9, digitsToNat_pad3 hd]
    · refine ⟨hlen1, hlen2, rfl, ?_⟩
      simp [isDigitChar_digitChar, h1, h2, h3, h4, h5, h6]
  · apply strUpper_eq_self
    intro c hc
    rw [hdata] at hc
    rcases List.mem_append.1 hc with h | h
    · have := isUpperAlpha_toNat_le (hup c h)
      omega
    · simp only [List.mem_cons, List.not_mem_nil, or_false] at h
      rcases h with h | h | h | h | h | h <;> subst h <;>
        rw [digitChar_toNat (by omega)] <;> omega
  · intro db s hne
    constructor
    · simp [get_navaid, plainNavaidLookup, hne]
    · simp [get_point, plainPointLookup, hne]

theorem encoded_notation_roundtrip_witness :
    (2 ≤ "SEA".data.length ∧ "SEA".data.length ≤ 5 ∧
      (∀ c ∈ "SEA".data, isUpperAlpha c = true) ∧ 270 ≤ 359 ∧ 5 ≤ 999) ∧
    (parseEncoded ("SEA" ++ pad3 270 ++ pad3 5) = some ("SEA", 270, 5) ∧
      strUpper ("SEA" ++ pad3 270 ++ pad3 5) = "SEA" ++ pad3 270 ++ pad3 5 ∧
      (∀ (db : DB) (s : String), parseEncoded (strUpper s) = none →
        get_navaid db s = plainNavaidLookup db (strUpper s) ∧
        get_point db s = plainPointLookup db (strUpper s))) :=
  ⟨⟨by decide, by decide, by decide, by decide, by decide⟩,
    encoded_notation_roundtrip "SEA" 270 5 (by decide) (by decide) (by decide)
      (by decide) (by decide)⟩

theorem bearing_360_equals_bearing_0_witness :
    (0:ℝ) ≤ 0 ∧
    ((∀ m, get_radial_distance dbEmpty "X" 360 0 false false false
        ≠ ApiResult.error 400 m) ∧
      calculate_destination 0 0 360 0 = calculate_destination 0 0 0 0) :=
  ⟨by norm_num, bearing_360_equals_bearing_0 dbEmpty "X" 0 0 0 (by norm_num)⟩

/-- C9: every lookup operation is case-insensitive in its identifier: looking
up a token returns exactly the same result as looking up its uppercase form,
for each of the four plain endpoints and the four projected endpoints. -/
theorem lookup_case_insensitive (db : DB) (s : String) (radial : ℤ) (distance : ℝ) :
    get_airport db s = get_airport db (strUpper s) ∧
    get_waypoint db s = get_waypoint db (strUpper s) ∧
    get_navaid db s = get_navaid db (strUpper s) ∧
    get_point db s = get_point db (strUpper s) ∧
    get_airport_radial db s radial distance
      = get_airport_radial db (strUpper s) radial distance ∧
    get_waypoint_radial db s radial distance
      = get_waypoint_radial db (strUpper s) radial distance ∧
    get_navaid_radial db s radial distance
      = get_navaid_radial db (strUpper s) radial distance ∧
    get_point_radial db s radial distance
      = get_point_radial db (strUpper s) radial distance := by
  refine ⟨?_, ?_, ?_, ?_, ?_, ?_, ?_, ?_⟩ <;>
    simp only [get_airport, get_waypoint, get_navaid, get_point, get_airport_radial,
      get_waypoint_radial, get_navaid_radial, get_point_radial, strUpper_strUpper]

/-- C8: the encoded notation is honored only on the navaid and any-kind plain
token paths. On the airport and waypoint plain paths an encoded-shaped token
is looked up as a plain identifier, and every endpoint that receives explicit
radial/distance parameters passes the (case-normalized) identifier to
`get_radial_distance` untouched, never decoding it. -/
theorem encoded_only_on_navaid_any_paths (db : DB) (s id : String) (b d : ℕ)
    (hp : parseEncoded (strUpper s) = some (id, b, d)) :
    get_airport db s = plainAirportLookup db (strUpper s) ∧
    get_waypoint db s = plainWaypointLookup db (strUpper s) ∧
    get_navaid db s = get_radial_distance db id (b : ℤ) (d : ℝ) false false false ∧
    get_point db s = get_radial_distance db id (b : ℤ) (d : ℝ) false false false ∧
    (∀ (radial : ℤ) (distance : ℝ),
      get_airport_radial db s radial distance
        = get_radial_distance db (strUpper s) radial distance true false false ∧
      get_navaid_radial db s radial distance
        = get_radial_distance db (strUpper s) radial distance false true false ∧
      get_waypoint_radial db s radial distance
        = get_radial_distance db (strUpper s) radial distance false false true ∧
      get_point_radial db s radial distance
        = get_radial_distance db (strUpper s) radial distance false false false) := by
  refine ⟨rfl, rfl, ?_, ?_, fun radial distance => ⟨rfl, rfl, rfl, rfl⟩⟩
  · simp [get_navaid, hp]
  · simp [get_point, hp]

theorem encoded_only_on_navaid_any_paths_witness :
    get_airport dbEmpty "SEA270005" = plainAirportLookup dbEmpty (strUpper "SEA270005") ∧
    get_waypoint dbEmpty "SEA270005" = plainWaypointLookup dbEmpty (strUpper "SEA270005") ∧
    get_navaid dbEmpty "SEA270005"
      = get_radial_distance dbEmpty "SEA" ((270:ℕ) : ℤ) ((5:ℕ) : ℝ) false false false ∧
    get_point dbEmpty "SEA270005"
      = get_radial_distance dbEmpty "SEA" ((270:ℕ) : ℤ) ((5:ℕ) : ℝ) false false false ∧
    (∀ (radial : ℤ) (distance : ℝ),
      get_airport_radial dbEmpty "SEA270005" radial distance
        = get_radial_distance dbEmpty (strUpper "SEA270005") radial distance true false false ∧
      get_navaid_radial dbEmpty "SEA270005" radial distance
        = get_radial_distance dbEmpty (strUpper "SEA270005") radial distance false true false ∧
      get_waypoint_radial dbEmpty "SEA270005" radial distance
        = get_radial_distance dbEmpty (strUpper "SEA270005") radial distance false false true ∧
      get_point_radial dbEmpty "SEA270005" radial distance
        = get_radial_distance dbEmpty (strUpper "SEA270005") radial distance false false false) :=
  encoded_only_on_navaid_any_paths dbEmpty "SEA270005" "SEA" 270 5 (by decide)

/-- C10: when the navaid plain endpoint receives an encoded token, the
extracted reference identifier is resolved without any kind restriction
(airports, then navaids, then fixes): whenever the letter prefix names an
airport, the returned projection references the airport entity with type
"airport", regardless of any navaid under the same identifier. -/
theorem navaid_encoded_airport_precedence (db : DB) (s id : String) (b d : ℕ)
    (a : Airport) (hp : parseEncoded (strUpper s) = some (id, b, d))
    (ha : db.AIRPORTS id = some a) (hb : b ≤ 360) :
    get_navaid db s = ApiResult.ok (Response.radialData a.identifier "airport"
      (b : ℤ) (d : ℝ)
      (calculate_destination a.latitude a.longitude ((b : ℤ) : ℝ) (d : ℝ)).1
      (calculate_destination a.latitude a.longitude ((b : ℤ) : ℝ) (d : ℝ)).2) := by
  have hr : (0 : ℤ) ≤ (b : ℤ) ∧ (b : ℤ) ≤ 360 :=
    ⟨Int.natCast_nonneg b, by exact_mod_cast hb⟩
  have hdist : ¬ ((d : ℝ) < 0) := not_lt.2 (by positivity)
  have e1 : refLookup db id false false false = some (RefPoint.airport a, "airport") := by
    simp [refLookup, ha]
  simp only [get_navaid, hp]
  unfold get_radial_distance
  rw [e1]
  dsimp only
  rw [if_neg (not_not_intro hr), if_neg hdist]
  rfl

theorem navaid_encoded_airport_precedence_witness :
    get_navaid dbBoth "SEA270005" = ApiResult.ok (Response.radialData apSEA.identifier
      "airport" ((270:ℕ) : ℤ) ((5:ℕ) : ℝ)
      (calculate_destination apSEA.latitude apSEA.longitude
        (((270:ℕ) : ℤ) : ℝ) ((5:ℕ) : ℝ)).1
      (calculate_destination apSEA.latitude apSEA.longitude
        (((270:ℕ) : ℤ) : ℝ) ((5:ℕ) : ℝ)).2) :=
  navaid_encoded_airport_precedence dbBoth "SEA270005" "SEA" 270 5 apSEA
    (by decide) rfl (by decide)

/-- C7 counterexample: with the test-fixture catalogs, in which SEA names both
an airport (47.449, -122.309) and a navaid (47.435278, -122.309722), resolving
the encoded token "SEA270005" through the unrestricted lookup does NOT return
the same result as the navaid-restricted projected lookup of SEA at 270/5:
the unrestricted path resolves SEA to the airport first, so the reference type
and coordinates differ. -/
theorem encoded_any_vs_navaid_counterexample :
    get_point dbBoth "SEA270005"
      ≠ get_radial_distance dbBoth "SEA" 270 5 false true false := by
  intro h
  have hp : parseEncoded (strUpper "SEA270005") = some ("SEA", 270, 5) := by decide
  have e1 : refLookup dbBoth "SEA" false false false
      = some (RefPoint.airport apSEA, "airport") := rfl
  have e2 : refLookup dbBoth "SEA" false true false
      = some (RefPoint.navaid navSEA, "navaid") := rfl
  simp only [get_point, hp, get_radial_distance, e1, e2] at h
  norm_num at h
  exact absurd h.2.1 (by decide)

/-- C7 (amended): given catalogs in which the navaid SEA is at
(47.435278, -122.309722) and — as the counterexample forces — the identifier
SEA is absent from the airport catalog, resolving the encoded token
"SEA270005" through the unrestricted lookup with no explicit bearing/distance
parameters returns the same result as the navaid-restricted projected lookup
of SEA with bearing 270 and distance 5, namely the projection from the navaid
coordinate with type "navaid". -/
theorem encoded_any_matches_navaid_lookup (db : DB) (nav : Navaid)
    (ha : db.AIRPORTS "SEA" = none) (hn : db.NAVAIDS "SEA" = some nav)
    (hlat : nav.latitude = 47.435278) (hlon : nav.longitude = -122.309722) :
    get_point db "SEA270005" = get_radial_distance db "SEA" 270 5 false true false ∧
    get_point db "SEA270005" = ApiResult.ok (Response.radialData nav.identifier
      "navaid" 270 5
      (calculate_destination 47.435278 (-122.309722) ((270:ℤ) : ℝ) 5).1
      (calculate_destination 47.435278 (-122.309722) ((270:ℤ) : ℝ) 5).2) := by
  have hp : parseEncoded (strUpper "SEA270005") = some ("SEA", 270, 5) := by decide
  have e1 : refLookup db "SEA" false false false
      = some (RefPoint.navaid nav, "navaid") := by
    simp [refLookup, ha, hn]
  have e2 : refLookup db "SEA" false true false
      = some (RefPoint.navaid nav, "navaid") := by
    simp [refLookup, hn]
  constructor
  · simp only [get_point, hp, get_radial_distance, e1, e2]
    norm_num
  · simp only [get_point, hp, get_radial_distance, e1]
    norm_num [RefPoint.latitude, RefPoint.longitude, RefPoint.identifier, hlat, hlon]

theorem encoded_any_matches_navaid_lookup_witness :
    get_point dbNavOnly "SEA270005"
      = get_radial_distance dbNavOnly "SEA" 270 5 false true false ∧
    get_point dbNavOnly "SEA270005" = ApiResult.ok (Response.radialData
      navSEA.identifier "navaid" 270 5
      (calculate_destination 47.435278 (-122.309722) ((270:ℤ) : ℝ) 5).1
      (calculate_destination 47.435278 (-122.309722) ((270:ℤ) : ℝ) 5).2) :=
  encoded_any_matches_navaid_lookup dbNavOnly navSEA rfl rfl rfl rfl

end NavaidApi
